import Mathlib

/-!
# Verification of the endless-runner game core (`src/game.js`)

A shallow embedding of the decision logic of the 3D Chrome-dino game:
player jump/duck physics, obstacle spawning and motion, scoring,
axis-aligned collision detection, best-score persistence and the
particle lifecycle, together with the Idle/Playing/GameOver state
machine driven by keyboard, pointer and animation-frame events.

Numbers are modelled as rationals (`ℚ`); the score and high score are
natural numbers (the score only ever receives `+= 100`).  Randomness
(`Math.random()` in obstacle creation and particle bursts) is modelled
by oracle parameters supplied to each operation; the DOM / Three.js
rendering writes (materials, overlays, text content, camera) carry no
decision logic and are outside the model, as are the purely cosmetic
ground lines, stars and leg/wing animations.
-/

namespace DinoGame

/-- `groundY = -2` in `game.js`. -/
def groundY : ℚ := -2

/-- The dino's resting height: `dino.userData.baseY = groundY + 0.4`. -/
def baseY : ℚ := groundY + 2/5

/-- The dino's fixed horizontal position: `dino.position.set(-4, ...)`. -/
def dinoX : ℚ := -4

/-- `baseSpeed = 0.15`. -/
def baseSpeed : ℚ := 3/20

/-- The per-score speed coefficient `0.00005` in `speed = baseSpeed + score * 0.00005`. -/
def speedCoef : ℚ := 5/100000

/-- `gravity = 0.015`. -/
def gravity : ℚ := 3/200

/-- The initial upward velocity set by `jump()`: `jumpVelocity = 0.35`. -/
def jumpVel : ℚ := 7/20

/-- The nominal frame interval `16.67` used to normalise deltas. -/
def nominalFrame : ℚ := 1667/100

/-- `const delta = Math.min((time - lastTime) / 16.67, 2)`. -/
def clampedDelta (time lastTime : ℚ) : ℚ := min ((time - lastTime) / nominalFrame) 2

/-- `const spawnInterval = Math.max(50, 100 - score * 0.03)`. -/
def spawnInterval (score : ℕ) : ℚ := max 50 (100 - (score : ℚ) * (3/100))

/-- An obstacle's gameplay data: its group position (`x`,`y`) and the
`userData` fields `width`, `height`, `passed` used by scoring and
collision.  Mesh children and wing-phase are cosmetic and not modelled. -/
structure Obstacle where
  x : ℚ
  y : ℚ
  width : ℚ
  height : ℚ
  passed : Bool
  deriving Repr, DecidableEq

/-- A particle's gameplay data: position, velocity and remaining life
(the `userData` of each particle mesh; rotation speed is cosmetic). -/
structure Particle where
  px : ℚ
  py : ℚ
  pz : ℚ
  vx : ℚ
  vy : ℚ
  vz : ℚ
  life : ℚ
  deriving Repr, DecidableEq

/-- The module-level mutable game state of `game.js` (gameplay fields
only; renderer, camera, ground lines and stars are cosmetic). -/
structure GameState where
  gameStarted : Bool
  gameOver : Bool
  score : ℕ
  highScore : ℕ
  speed : ℚ
  jumpVelocity : ℚ
  isJumping : Bool
  isDucking : Bool
  dinoY : ℚ
  dinoScaleY : ℚ
  dinoVisible : Bool
  obstacleTimer : ℚ
  lastTime : ℚ
  obstacles : List Obstacle
  particles : List Particle
  deriving Repr, DecidableEq

/-- The initial state: module initialisation with the persisted high
score `hs` read from storage (`parseInt(localStorage...) || 0`). -/
def initState (hs : ℕ) : GameState :=
  { gameStarted := false
    gameOver := false
    score := 0
    highScore := hs
    speed := baseSpeed
    jumpVelocity := 0
    isJumping := false
    isDucking := false
    dinoY := baseY
    dinoScaleY := 1
    dinoVisible := true
    obstacleTimer := 0
    lastTime := 0
    obstacles := []
    particles := [] }

/-! ## Obstacle creation

`createObstacle()` rolls `Math.random()` to pick one of three builders
and then sets `obstacle.position.x = 20`.  The roll (and the
pterodactyl's altitude coin-flip) is the oracle; each builder's
`userData` dimensions are fixed constants in the source. -/

/-- The random choice made by `createObstacle` (`type < 0.6` cactus,
`type < 0.85` double cactus, otherwise pterodactyl, whose altitude is a
second coin-flip). -/
inductive ObstacleChoice where
  | cactus
  | doubleCactus
  | pterodactyl (high : Bool)
  deriving Repr, DecidableEq

/-- `createCactus`: `group.position.y = groundY`,
`userData = { width: 0.8, height: 2.5, passed: false }`. -/
def createCactus : Obstacle :=
  { x := 0, y := groundY, width := 4/5, height := 5/2, passed := false }

/-- `createDoubleCactus`: `group.position.y = groundY`,
`userData = { width: 2, height: 2.5, passed: false }`. -/
def createDoubleCactus : Obstacle :=
  { x := 0, y := groundY, width := 2, height := 5/2, passed := false }

/-- `createPterodactyl`: flies at `groundY + 3` or `groundY + 1.2`,
`userData = { width: 1.2, height: 1.5, passed: false }`. -/
def createPterodactyl (high : Bool) : Obstacle :=
  { x := 0, y := if high then groundY + 3 else groundY + 6/5
    width := 6/5, height := 3/2, passed := false }

/-- `createObstacle()`: build the chosen obstacle and place it at the
right boundary `x = 20`. -/
def createObstacle (c : ObstacleChoice) : Obstacle :=
  match c with
  | .cactus => { createCactus with x := 20 }
  | .doubleCactus => { createDoubleCactus with x := 20 }
  | .pterodactyl high => { createPterodactyl high with x := 20 }

/-! ## Collision detection (`checkCollision`) -/

/-- An axis-aligned box as built inside `checkCollision`. -/
structure Box where
  x : ℚ
  y : ℚ
  width : ℚ
  height : ℚ
  deriving Repr, DecidableEq

/-- The dino's hitbox:
`{ x: dino.position.x - 0.4, y: dino.position.y, width: 1.2, height: isDucking ? 1 : 2 }`. -/
def dinoBox (dinoY : ℚ) (ducking : Bool) : Box :=
  { x := dinoX - 2/5, y := dinoY, width := 6/5, height := if ducking then 1 else 2 }

/-- The obstacle's hitbox:
`{ x: obstacle.position.x - width/2, y: obstacle.position.y, width, height }`. -/
def obsBox (obs : Obstacle) : Box :=
  { x := obs.x - obs.width / 2, y := obs.y, width := obs.width, height := obs.height }

/-- The AABB overlap test at the end of `checkCollision`. -/
def boxesOverlap (a b : Box) : Bool :=
  !(decide (a.x + a.width < b.x) || decide (a.x > b.x + b.width) ||
    decide (a.y + a.height < b.y) || decide (a.y > b.y + b.height))

/-- `checkCollision(obstacle)`: dino hitbox vs obstacle hitbox. -/
def checkCollision (dinoY : ℚ) (ducking : Bool) (obs : Obstacle) : Bool :=
  boxesOverlap (dinoBox dinoY ducking) (obsBox obs)

/-! ## Particle system -/

/-- Per-particle update in the `animate` particle loop: position moves
by the velocity, `velocity.y -= 0.008`, `life -= 0.02` (note: the
source applies none of these through `delta`). -/
def particleStep (p : Particle) : Particle :=
  { p with px := p.px + p.vx, py := p.py + p.vy, pz := p.pz + p.vz
           vy := p.vy - 8/1000
           life := p.life - 2/100 }

/-- The particle loop of `animate`: every particle is stepped and the
ones whose life dropped to `≤ 0` are spliced out.  The source iterates
from the last index down to `0`; since each iteration reads and writes
only its own element, forward recursion yields the same list. -/
def particlesTick : List Particle → List Particle
  | [] => []
  | p :: rest =>
      let q := particleStep p
      if 0 < q.life then q :: particlesTick rest else particlesTick rest

/-! ## Game-over and input handlers

Particle bursts (`createJumpParticles`, `createDeathParticles`,
`createScoreParticles`) push randomly-initialised particles; the burst
contents are oracle parameters.  `array.push` appends, so bursts are
appended at the end of the particle list. -/

/-- `endGame()`: set `gameOver`, emit the death burst, hide the dino,
and persist the high score when the run's score beats it. -/
def endGame (burst : List Particle) (s : GameState) : GameState :=
  { s with gameOver := true
           particles := s.particles ++ burst
           dinoVisible := false
           highScore := if s.score > s.highScore then s.score else s.highScore }

/-- `jump()`: when not already jumping and not in game over, start the
jump with upward velocity `0.35` and emit a jump burst. -/
def jump (burst : List Particle) (s : GameState) : GameState :=
  if !s.isJumping && !s.gameOver then
    { s with isJumping := true, jumpVelocity := jumpVel
             particles := s.particles ++ burst }
  else s

/-- `startGame()`: enter Playing, reset score and speed (overlay and
score-display writes are presentation). -/
def startGame (s : GameState) : GameState :=
  { s with gameStarted := true, gameOver := false, score := 0, speed := baseSpeed }

/-- `restartGame()`: clear obstacles and particles, reset the dino and
the spawn timer, then `startGame()`. -/
def restartGame (s : GameState) : GameState :=
  startGame
    { s with obstacles := []
             particles := []
             dinoY := baseY
             dinoScaleY := 1
             dinoVisible := true
             isJumping := false
             isDucking := false
             jumpVelocity := 0
             obstacleTimer := 0 }

/-- `onKeyDown` for `Space`/`ArrowUp`: start, restart, or jump. -/
def onKeyDownSpace (burst : List Particle) (s : GameState) : GameState :=
  if !s.gameStarted then startGame s
  else if s.gameOver then restartGame s
  else jump burst s

/-- `onKeyDown` for `ArrowDown`: while a run is active, duck — halve
the dino's scale and drop its position `0.5` below `baseY`.  Note the
source does not test `isJumping` here. -/
def onKeyDownArrowDown (s : GameState) : GameState :=
  if s.gameStarted && !s.gameOver then
    { s with isDucking := true, dinoScaleY := 1/2, dinoY := baseY - 1/2 }
  else s

/-- `onKeyUp` for `ArrowDown`: clear the duck posture; restore the
resting height only when not airborne.  The source has no
`gameStarted`/`gameOver` guard on this handler. -/
def onKeyUpArrowDown (s : GameState) : GameState :=
  let s1 := { s with isDucking := false, dinoScaleY := 1 }
  if !s1.isJumping then { s1 with dinoY := baseY } else s1

/-- `onPointerDown`: start, restart, or — only when not airborne —
duck. -/
def onPointerDown (s : GameState) : GameState :=
  if !s.gameStarted then startGame s
  else if s.gameOver then restartGame s
  else if !s.isJumping then
    { s with isDucking := true, dinoScaleY := 1/2, dinoY := baseY - 1/2 }
  else s

/-- `onPointerUp`: during a run, stand up from a duck (restoring the
resting height) and then jump. -/
def onPointerUp (burst : List Particle) (s : GameState) : GameState :=
  if !s.gameStarted || s.gameOver then s
  else
    let s1 :=
      if s.isDucking then
        { s with isDucking := false, dinoScaleY := 1, dinoY := baseY }
      else s
    jump burst s1

/-! ## The per-frame update (`animate`)

The gameplay section of `animate` runs only when
`gameStarted && !gameOver` *as evaluated at the top of the tick*; a
collision inside the obstacle loop sets `gameOver` but the remainder of
the block — including the jump physics — still executes on that frame.
The per-tick oracle supplies the random obstacle choice and the random
contents of each particle burst. -/

/-- The random draws a single frame may consume. -/
structure TickOracle where
  choice : ObstacleChoice
  deathBurst : List Particle
  landBurst : List Particle
  scoreBurst : List Particle

/-- `obs.position.x -= speed * delta`. -/
def moveObs (speed δ : ℚ) (obs : Obstacle) : Obstacle :=
  { obs with x := obs.x - speed * δ }

/-- The scoring trigger: `!obs.userData.passed && obs.position.x < dino.position.x - 1`. -/
def scoreHit (obs : Obstacle) : Bool :=
  !obs.passed && decide (obs.x < dinoX - 1)

/-- The moved obstacle as it stands after the scoring check of one
loop iteration (the `passed` flag is set once the trailing edge clears
the dino at `x < dino.position.x - 1`). -/
def steppedObs (speed δ : ℚ) (obs : Obstacle) : Obstacle :=
  let m := moveObs speed δ obs
  if scoreHit m then { m with passed := true } else m

/-- The state effect of one obstacle-loop iteration: add `100` and a
score burst when the moved obstacle is newly passed, then end the game
if the moved obstacle overlaps the dino. -/
def obstacleStepState (speed δ : ℚ) (o : TickOracle) (s : GameState) (obs : Obstacle) :
    GameState :=
  let s2 :=
    if scoreHit (moveObs speed δ obs) then
      { s with score := s.score + 100, particles := s.particles ++ o.scoreBurst }
    else s
  if checkCollision s2.dinoY s2.isDucking (steppedObs speed δ obs) then
    endGame o.deathBurst s2
  else s2

/-- Whether the obstacle survives the iteration (`obs.position.x < -15`
splices it out), and if so in what form. -/
def obstacleStepKeep (speed δ : ℚ) (obs : Obstacle) : Option Obstacle :=
  if decide ((steppedObs speed δ obs).x < -15) then none else some (steppedObs speed δ obs)

/-- One iteration of the obstacle loop: move the obstacle, mark it
passed and add `100` when its trailing edge clears the dino, end the
game on collision, and drop it once `x < -15`.  Returns the updated
state and the obstacle if it was kept. -/
def obstacleStep (speed δ : ℚ) (o : TickOracle) (s : GameState) (obs : Obstacle) :
    GameState × Option Obstacle :=
  (obstacleStepState speed δ o s obs, obstacleStepKeep speed δ obs)

/-- The obstacle loop (`for i = obstacles.length - 1; i >= 0; i--`):
later-indexed obstacles are processed first, and the kept obstacles
come out in their original order. -/
def obstacleLoop (speed δ : ℚ) (o : TickOracle) (s : GameState) :
    List Obstacle → GameState × List Obstacle
  | [] => (s, [])
  | obs :: rest =>
      let r := obstacleLoop speed δ o s rest
      let r2 := obstacleStep speed δ o r.1 obs
      (r2.1, r2.2.toList ++ r.2)

/-- The head of the gameplay block: recompute the speed from the score
(`speed = baseSpeed + score * 0.00005`), accumulate the spawn timer and
spawn one obstacle (resetting the timer) when it exceeds the current
spawn interval. -/
def spawnPhase (δ : ℚ) (o : TickOracle) (s : GameState) : GameState :=
  let s1 := { s with speed := baseSpeed + (s.score : ℚ) * speedCoef }
  if decide (s1.obstacleTimer + δ > spawnInterval s1.score) then
    { s1 with obstacles := s1.obstacles ++ [createObstacle o.choice], obstacleTimer := 0 }
  else { s1 with obstacleTimer := s1.obstacleTimer + δ }

/-- The obstacle section of the gameplay block: run the loop over the
obstacle list and install the kept obstacles. -/
def obstaclePhase (δ : ℚ) (o : TickOracle) (s : GameState) : GameState :=
  let r := obstacleLoop s.speed δ o s s.obstacles
  { r.1 with obstacles := r.2 }

/-- The dino jump physics at the end of the gameplay block: while
airborne, integrate position and velocity; on reaching or crossing
`baseY`, clamp to `baseY`, land, zero the velocity and emit a landing
burst.  The source does not re-test `gameOver` here, so this runs even
on a frame whose collision just ended the run. -/
def physicsStep (δ : ℚ) (landBurst : List Particle) (s : GameState) : GameState :=
  if s.isJumping then
    let y := s.dinoY + s.jumpVelocity * δ
    if y ≤ baseY then
      { s with dinoY := baseY, isJumping := false, jumpVelocity := 0
               particles := s.particles ++ landBurst }
    else
      { s with dinoY := y, jumpVelocity := s.jumpVelocity - gravity * δ }
  else s

/-- The whole gameplay block of `animate` (entered only when
`gameStarted && !gameOver` held at the top of the frame). -/
def gameplay (δ : ℚ) (o : TickOracle) (s : GameState) : GameState :=
  physicsStep δ o.landBurst (obstaclePhase δ o (spawnPhase δ o s))

/-- One full `animate(time)` frame: compute the clamped delta, update
`lastTime`, run the gameplay block when a run was active at frame
entry, then advance and prune the particles (which runs in every
mode). -/
def animate (time : ℚ) (o : TickOracle) (s : GameState) : GameState :=
  let δ := clampedDelta time s.lastTime
  let s1 := { s with lastTime := time }
  let s2 := if s1.gameStarted && !s1.gameOver then gameplay δ o s1 else s1
  { s2 with particles := particlesTick s2.particles }

/-! ## Reachability -/

/-- One externally-triggered transition: a keyboard event, a pointer
event, or an animation frame. -/
inductive Step : GameState → GameState → Prop where
  | keySpace (b : List Particle) (s : GameState) : Step s (onKeyDownSpace b s)
  | keyDuckDown (s : GameState) : Step s (onKeyDownArrowDown s)
  | keyDuckUp (s : GameState) : Step s (onKeyUpArrowDown s)
  | pointerDown (s : GameState) : Step s (onPointerDown s)
  | pointerUp (b : List Particle) (s : GameState) : Step s (onPointerUp b s)
  | frame (t : ℚ) (o : TickOracle) (s : GameState) : Step s (animate t o s)

/-- States reachable from module initialisation (with any persisted
high score) by a sequence of events. -/
inductive Reachable : GameState → Prop where
  | init (hs : ℕ) : Reachable (initState hs)
  | step {s s' : GameState} : Reachable s → Step s s' → Reachable s'

/-! ## Concrete probe values used by witnesses and counterexamples -/

/-- A frame oracle with deterministic (empty) particle bursts and a
single-cactus roll. -/
def noBurst : TickOracle :=
  { choice := .cactus, deathBurst := [], landBurst := [], scoreBurst := [] }

/-- A cactus sitting right on top of the dino's horizontal span. -/
def collideObs : Obstacle :=
  { x := -4, y := groundY, width := 4/5, height := 5/2, passed := false }

/-- A mid-run state: the dino is airborne slightly above its resting
height, with `collideObs` about to overlap it on the next frame. -/
def collideState : GameState :=
  { gameStarted := true, gameOver := false, score := 0, highScore := 0
    speed := baseSpeed, jumpVelocity := jumpVel, isJumping := true, isDucking := false
    dinoY := baseY + 1/5, dinoScaleY := 1, dinoVisible := true
    obstacleTimer := 0, lastTime := 0, obstacles := [collideObs], particles := [] }

/-- `collideObs` after it has been scored. -/
def passedObs : Obstacle := { collideObs with passed := true }

/-- A probe particle with unit horizontal velocity and full life. -/
def probeParticle : Particle :=
  { px := 0, py := 0, pz := 0, vx := 1, vy := 0, vz := 0, life := 1 }

/-- An Idle state holding one probe particle (used to watch one
particle-system tick in isolation). -/
def particleState : GameState := { initState 0 with particles := [probeParticle] }

/-- An airborne mid-run state (used to probe duck-while-jumping). -/
def airborneState : GameState :=
  { initState 0 with gameStarted := true, isJumping := true
                     jumpVelocity := jumpVel, dinoY := baseY + 1 }

/-- A run that reached score `150` against a stored best of `100`. -/
def run150 : GameState := { initState 100 with gameStarted := true, score := 150 }

/-- A run that reached score `90` against a stored best of `150`. -/
def run90 : GameState := { initState 150 with gameStarted := true, score := 90 }

/-! ## Field-preservation lemmas -/

@[simp] lemma endGame_dinoY (b : List Particle) (s : GameState) :
    (endGame b s).dinoY = s.dinoY := rfl

@[simp] lemma endGame_isJumping (b : List Particle) (s : GameState) :
    (endGame b s).isJumping = s.isJumping := rfl

@[simp] lemma endGame_jumpVelocity (b : List Particle) (s : GameState) :
    (endGame b s).jumpVelocity = s.jumpVelocity := rfl

@[simp] lemma endGame_isDucking (b : List Particle) (s : GameState) :
    (endGame b s).isDucking = s.isDucking := rfl

@[simp] lemma endGame_gameStarted (b : List Particle) (s : GameState) :
    (endGame b s).gameStarted = s.gameStarted := rfl

@[simp] lemma endGame_gameOver (b : List Particle) (s : GameState) :
    (endGame b s).gameOver = true := rfl

@[simp] lemma endGame_score (b : List Particle) (s : GameState) :
    (endGame b s).score = s.score := rfl

@[simp] lemma endGame_speed (b : List Particle) (s : GameState) :
    (endGame b s).speed = s.speed := rfl

@[simp] lemma endGame_obstacleTimer (b : List Particle) (s : GameState) :
    (endGame b s).obstacleTimer = s.obstacleTimer := rfl

@[simp] lemma endGame_lastTime (b : List Particle) (s : GameState) :
    (endGame b s).lastTime = s.lastTime := rfl

@[simp] lemma endGame_highScore (b : List Particle) (s : GameState) :
    (endGame b s).highScore = if s.score > s.highScore then s.score else s.highScore := rfl

lemma obstacleStepState_dinoY (sp δ : ℚ) (o : TickOracle) (s : GameState) (obs : Obstacle) :
    (obstacleStepState sp δ o s obs).dinoY = s.dinoY := by
  simp only [obstacleStepState]
  split_ifs <;> rfl

lemma obstacleStepState_isJumping (sp δ : ℚ) (o : TickOracle) (s : GameState)
    (obs : Obstacle) : (obstacleStepState sp δ o s obs).isJumping = s.isJumping := by
  simp only [obstacleStepState]
  split_ifs <;> rfl

lemma obstacleStepState_jumpVelocity (sp δ : ℚ) (o : TickOracle) (s : GameState)
    (obs : Obstacle) : (obstacleStepState sp δ o s obs).jumpVelocity = s.jumpVelocity := by
  simp only [obstacleStepState]
  split_ifs <;> rfl

lemma obstacleStepState_isDucking (sp δ : ℚ) (o : TickOracle) (s : GameState)
    (obs : Obstacle) : (obstacleStepState sp δ o s obs).isDucking = s.isDucking := by
  simp only [obstacleStepState]
  split_ifs <;> rfl

lemma obstacleStepState_gameStarted (sp δ : ℚ) (o : TickOracle) (s : GameState)
    (obs : Obstacle) : (obstacleStepState sp δ o s obs).gameStarted = s.gameStarted := by
  simp only [obstacleStepState]
  split_ifs <;> rfl

lemma obstacleStepState_obstacleTimer (sp δ : ℚ) (o : TickOracle) (s : GameState)
    (obs : Obstacle) : (obstacleStepState sp δ o s obs).obstacleTimer = s.obstacleTimer := by
  simp only [obstacleStepState]
  split_ifs <;> rfl

lemma obstacleStepState_lastTime (sp δ : ℚ) (o : TickOracle) (s : GameState)
    (obs : Obstacle) : (obstacleStepState sp δ o s obs).lastTime = s.lastTime := by
  simp only [obstacleStepState]
  split_ifs <;> rfl

lemma obstacleStepState_score_mono (sp δ : ℚ) (o : TickOracle) (s : GameState)
    (obs : Obstacle) : s.score ≤ (obstacleStepState sp δ o s obs).score := by
  simp only [obstacleStepState]
  split_ifs <;> simp

lemma obstacleLoop_fst_dinoY (sp δ : ℚ) (o : TickOracle) (s : GameState)
    (l : List Obstacle) : (obstacleLoop sp δ o s l).1.dinoY = s.dinoY := by
  induction l with
  | nil => rfl
  | cons obs rest ih =>
      simp only [obstacleLoop, obstacleStep, obstacleStepState_dinoY, ih]

lemma obstacleLoop_fst_isJumping (sp δ : ℚ) (o : TickOracle) (s : GameState)
    (l : List Obstacle) : (obstacleLoop sp δ o s l).1.isJumping = s.isJumping := by
  induction l with
  | nil => rfl
  | cons obs rest ih =>
      simp only [obstacleLoop, obstacleStep, obstacleStepState_isJumping, ih]

lemma obstacleLoop_fst_jumpVelocity (sp δ : ℚ) (o : TickOracle) (s : GameState)
    (l : List Obstacle) : (obstacleLoop sp δ o s l).1.jumpVelocity = s.jumpVelocity := by
  induction l with
  | nil => rfl
  | cons obs rest ih =>
      simp only [obstacleLoop, obstacleStep, obstacleStepState_jumpVelocity, ih]

lemma obstacleLoop_fst_isDucking (sp δ : ℚ) (o : TickOracle) (s : GameState)
    (l : List Obstacle) : (obstacleLoop sp δ o s l).1.isDucking = s.isDucking := by
  induction l with
  | nil => rfl
  | cons obs rest ih =>
      simp only [obstacleLoop, obstacleStep, obstacleStepState_isDucking, ih]

lemma obstacleLoop_fst_gameStarted (sp δ : ℚ) (o : TickOracle) (s : GameState)
    (l : List Obstacle) : (obstacleLoop sp δ o s l).1.gameStarted = s.gameStarted := by
  induction l with
  | nil => rfl
  | cons obs rest ih =>
      simp only [obstacleLoop, obstacleStep, obstacleStepState_gameStarted, ih]

lemma obstacleLoop_fst_obstacleTimer (sp δ : ℚ) (o : TickOracle) (s : GameState)
    (l : List Obstacle) : (obstacleLoop sp δ o s l).1.obstacleTimer = s.obstacleTimer := by
  induction l with
  | nil => rfl
  | cons obs rest ih =>
      simp only [obstacleLoop, obstacleStep, obstacleStepState_obstacleTimer, ih]

lemma obstacleLoop_fst_lastTime (sp δ : ℚ) (o : TickOracle) (s : GameState)
    (l : List Obstacle) : (obstacleLoop sp δ o s l).1.lastTime = s.lastTime := by
  induction l with
  | nil => rfl
  | cons obs rest ih =>
      simp only [obstacleLoop, obstacleStep, obstacleStepState_lastTime, ih]

lemma obstacleLoop_fst_score_mono (sp δ : ℚ) (o : TickOracle) (s : GameState)
    (l : List Obstacle) : s.score ≤ (obstacleLoop sp δ o s l).1.score := by
  induction l with
  | nil => exact le_refl _
  | cons obs rest ih =>
      refine le_trans ih ?_
      simpa only [obstacleLoop, obstacleStep] using
        obstacleStepState_score_mono sp δ o (obstacleLoop sp δ o s rest).1 obs

lemma spawnPhase_dinoY (δ : ℚ) (o : TickOracle) (s : GameState) :
    (spawnPhase δ o s).dinoY = s.dinoY := by
  simp only [spawnPhase]
  split_ifs <;> rfl

lemma spawnPhase_isJumping (δ : ℚ) (o : TickOracle) (s : GameState) :
    (spawnPhase δ o s).isJumping = s.isJumping := by
  simp only [spawnPhase]
  split_ifs <;> rfl

lemma spawnPhase_jumpVelocity (δ : ℚ) (o : TickOracle) (s : GameState) :
    (spawnPhase δ o s).jumpVelocity = s.jumpVelocity := by
  simp only [spawnPhase]
  split_ifs <;> rfl

lemma spawnPhase_isDucking (δ : ℚ) (o : TickOracle) (s : GameState) :
    (spawnPhase δ o s).isDucking = s.isDucking := by
  simp only [spawnPhase]
  split_ifs <;> rfl

lemma spawnPhase_gameStarted (δ : ℚ) (o : TickOracle) (s : GameState) :
    (spawnPhase δ o s).gameStarted = s.gameStarted := by
  simp only [spawnPhase]
  split_ifs <;> rfl

lemma spawnPhase_gameOver (δ : ℚ) (o : TickOracle) (s : GameState) :
    (spawnPhase δ o s).gameOver = s.gameOver := by
  simp only [spawnPhase]
  split_ifs <;> rfl

lemma spawnPhase_score (δ : ℚ) (o : TickOracle) (s : GameState) :
    (spawnPhase δ o s).score = s.score := by
  simp only [spawnPhase]
  split_ifs <;> rfl

lemma spawnPhase_lastTime (δ : ℚ) (o : TickOracle) (s : GameState) :
    (spawnPhase δ o s).lastTime = s.lastTime := by
  simp only [spawnPhase]
  split_ifs <;> rfl

@[simp] lemma obstaclePhase_dinoY (δ : ℚ) (o : TickOracle) (s : GameState) :
    (obstaclePhase δ o s).dinoY = s.dinoY := by
  simp only [obstaclePhase]
  exact obstacleLoop_fst_dinoY _ _ _ _ _

@[simp] lemma obstaclePhase_isJumping (δ : ℚ) (o : TickOracle) (s : GameState) :
    (obstaclePhase δ o s).isJumping = s.isJumping := by
  simp only [obstaclePhase]
  exact obstacleLoop_fst_isJumping _ _ _ _ _

@[simp] lemma obstaclePhase_jumpVelocity (δ : ℚ) (o : TickOracle) (s : GameState) :
    (obstaclePhase δ o s).jumpVelocity = s.jumpVelocity := by
  simp only [obstaclePhase]
  exact obstacleLoop_fst_jumpVelocity _ _ _ _ _

@[simp] lemma obstaclePhase_isDucking (δ : ℚ) (o : TickOracle) (s : GameState) :
    (obstaclePhase δ o s).isDucking = s.isDucking := by
  simp only [obstaclePhase]
  exact obstacleLoop_fst_isDucking _ _ _ _ _

@[simp] lemma obstaclePhase_gameStarted (δ : ℚ) (o : TickOracle) (s : GameState) :
    (obstaclePhase δ o s).gameStarted = s.gameStarted := by
  simp only [obstaclePhase]
  exact obstacleLoop_fst_gameStarted _ _ _ _ _

@[simp] lemma obstaclePhase_obstacleTimer (δ : ℚ) (o : TickOracle) (s : GameState) :
    (obstaclePhase δ o s).obstacleTimer = s.obstacleTimer := by
  simp only [obstaclePhase]
  exact obstacleLoop_fst_obstacleTimer _ _ _ _ _

@[simp] lemma obstaclePhase_lastTime (δ : ℚ) (o : TickOracle) (s : GameState) :
    (obstaclePhase δ o s).lastTime = s.lastTime := by
  simp only [obstaclePhase]
  exact obstacleLoop_fst_lastTime _ _ _ _ _

lemma obstaclePhase_score_mono (δ : ℚ) (o : TickOracle) (s : GameState) :
    s.score ≤ (obstaclePhase δ o s).score := by
  simp only [obstaclePhase]
  exact obstacleLoop_fst_score_mono _ _ _ _ _

lemma physicsStep_gameOver (δ : ℚ) (b : List Particle) (s : GameState) :
    (physicsStep δ b s).gameOver = s.gameOver := by
  simp only [physicsStep]
  split_ifs <;> rfl

lemma physicsStep_gameStarted (δ : ℚ) (b : List Particle) (s : GameState) :
    (physicsStep δ b s).gameStarted = s.gameStarted := by
  simp only [physicsStep]
  split_ifs <;> rfl

lemma physicsStep_score (δ : ℚ) (b : List Particle) (s : GameState) :
    (physicsStep δ b s).score = s.score := by
  simp only [physicsStep]
  split_ifs <;> rfl

lemma physicsStep_isDucking (δ : ℚ) (b : List Particle) (s : GameState) :
    (physicsStep δ b s).isDucking = s.isDucking := by
  simp only [physicsStep]
  split_ifs <;> rfl

/-- The integrated vertical position as the physics block leaves it. -/
lemma physicsStep_dinoY (δ : ℚ) (b : List Particle) (s : GameState) :
    (physicsStep δ b s).dinoY =
      if s.isJumping then
        (if s.dinoY + s.jumpVelocity * δ ≤ baseY then baseY
         else s.dinoY + s.jumpVelocity * δ)
      else s.dinoY := by
  simp only [physicsStep]
  split_ifs <;> rfl

/-- After the physics block the dino is at or above `baseY - 1/2`
provided it started there. -/
lemma physicsStep_dinoY_lb (δ : ℚ) (b : List Particle) (s : GameState)
    (h : baseY - 1/2 ≤ s.dinoY) : baseY - 1/2 ≤ (physicsStep δ b s).dinoY := by
  rw [physicsStep_dinoY]
  split_ifs with hj hy
  · norm_num [baseY, groundY]
  · linarith [hy]
  · exact h

/-- Landing zeroes the velocity: the grounded-implies-zero-velocity
invariant survives the physics block. -/
lemma physicsStep_grounded_vel (δ : ℚ) (b : List Particle) (s : GameState)
    (h : s.isJumping = false → s.jumpVelocity = 0) :
    (physicsStep δ b s).isJumping = false → (physicsStep δ b s).jumpVelocity = 0 := by
  simp only [physicsStep]
  split_ifs with hj hy
  · intro _; rfl
  · simp [hj]
  · exact h

/-! ## Frame-level lemmas -/

lemma animate_gameStarted (t : ℚ) (o : TickOracle) (s : GameState) :
    (animate t o s).gameStarted = s.gameStarted := by
  simp only [animate, gameplay]
  split_ifs with h
  · rw [physicsStep_gameStarted, obstaclePhase_gameStarted, spawnPhase_gameStarted]
  · rfl

lemma animate_dinoY_lb (t : ℚ) (o : TickOracle) (s : GameState)
    (h : baseY - 1/2 ≤ s.dinoY) : baseY - 1/2 ≤ (animate t o s).dinoY := by
  simp only [animate, gameplay]
  split_ifs with hp
  · exact physicsStep_dinoY_lb _ _ _ (by rw [obstaclePhase_dinoY, spawnPhase_dinoY]; exact h)
  · exact h

lemma animate_grounded_vel (t : ℚ) (o : TickOracle) (s : GameState)
    (h : s.isJumping = false → s.jumpVelocity = 0) :
    (animate t o s).isJumping = false → (animate t o s).jumpVelocity = 0 := by
  simp only [animate, gameplay]
  split_ifs with hp
  · exact physicsStep_grounded_vel _ _ _
      (by rw [obstaclePhase_isJumping, obstaclePhase_jumpVelocity,
              spawnPhase_isJumping, spawnPhase_jumpVelocity]; exact h)
  · exact h

lemma animate_score_mono (t : ℚ) (o : TickOracle) (s : GameState) :
    s.score ≤ (animate t o s).score := by
  simp only [animate, gameplay]
  split_ifs with hp
  · rw [physicsStep_score]
    calc s.score = (spawnPhase (clampedDelta t s.lastTime) o { s with lastTime := t }).score := by
          rw [spawnPhase_score]
      _ ≤ _ := obstaclePhase_score_mono _ _ _
  · exact le_refl _

lemma animate_idle (t : ℚ) (o : TickOracle) (s : GameState)
    (h : s.gameStarted = false) :
    (animate t o s).obstacles = s.obstacles ∧
    (animate t o s).particles = particlesTick s.particles ∧
    (animate t o s).obstacleTimer = s.obstacleTimer := by
  simp [animate, h]

/-! ## Event-handler facts -/

@[simp] lemma startGame_dinoY (s : GameState) : (startGame s).dinoY = s.dinoY := rfl
@[simp] lemma startGame_isJumping (s : GameState) : (startGame s).isJumping = s.isJumping := rfl
@[simp] lemma startGame_jumpVelocity (s : GameState) :
    (startGame s).jumpVelocity = s.jumpVelocity := rfl
@[simp] lemma startGame_gameStarted (s : GameState) : (startGame s).gameStarted = true := rfl
@[simp] lemma startGame_score (s : GameState) : (startGame s).score = 0 := rfl
@[simp] lemma startGame_speed (s : GameState) : (startGame s).speed = baseSpeed := rfl
@[simp] lemma startGame_obstacles (s : GameState) : (startGame s).obstacles = s.obstacles := rfl
@[simp] lemma startGame_particles (s : GameState) : (startGame s).particles = s.particles := rfl
@[simp] lemma startGame_obstacleTimer (s : GameState) :
    (startGame s).obstacleTimer = s.obstacleTimer := rfl

@[simp] lemma restartGame_dinoY (s : GameState) : (restartGame s).dinoY = baseY := rfl
@[simp] lemma restartGame_isJumping (s : GameState) : (restartGame s).isJumping = false := rfl
@[simp] lemma restartGame_jumpVelocity (s : GameState) : (restartGame s).jumpVelocity = 0 := rfl
@[simp] lemma restartGame_gameStarted (s : GameState) : (restartGame s).gameStarted = true := rfl

lemma jump_dinoY (b : List Particle) (s : GameState) : (jump b s).dinoY = s.dinoY := by
  simp only [jump]
  split_ifs <;> rfl

lemma jump_gameStarted (b : List Particle) (s : GameState) :
    (jump b s).gameStarted = s.gameStarted := by
  simp only [jump]
  split_ifs <;> rfl

lemma jump_grounded_vel (b : List Particle) (s : GameState)
    (h : s.isJumping = false → s.jumpVelocity = 0) :
    (jump b s).isJumping = false → (jump b s).jumpVelocity = 0 := by
  simp only [jump]
  split_ifs with hc
  · simp
  · exact h

/-! ## Reachability invariants -/

/-- Every event keeps the dino at or above `baseY - 1/2` (the duck
posture is the unique operation that goes below `baseY`, by exactly
`1/2`). -/
lemma step_dinoY_lb {s s' : GameState} (st : Step s s')
    (h : baseY - 1/2 ≤ s.dinoY) : baseY - 1/2 ≤ s'.dinoY := by
  cases st with
  | keySpace b s =>
      simp only [onKeyDownSpace]
      split_ifs
      · simpa using h
      · norm_num [baseY, groundY]
      · rwa [jump_dinoY]
  | keyDuckDown s =>
      simp only [onKeyDownArrowDown]
      split_ifs
      · simp
      · exact h
  | keyDuckUp s =>
      simp only [onKeyUpArrowDown]
      split_ifs
      · norm_num [baseY, groundY]
      · exact h
  | pointerDown s =>
      simp only [onPointerDown]
      split_ifs
      · simpa using h
      · norm_num [baseY, groundY]
      · simp
      · exact h
  | pointerUp b s =>
      simp only [onPointerUp]
      split_ifs
      · exact h
      · rw [jump_dinoY]; norm_num [baseY, groundY]
      · rwa [jump_dinoY]
  | frame t o s => exact animate_dinoY_lb t o s h

/-- In every reachable state the dino sits at or above `baseY - 1/2`. -/
lemma reachable_dinoY_lb {s : GameState} (h : Reachable s) :
    baseY - 1/2 ≤ s.dinoY := by
  induction h with
  | init hs => norm_num [initState, baseY, groundY]
  | step _ st ih => exact step_dinoY_lb st ih

/-- Every event preserves "grounded implies zero jump velocity". -/
lemma step_grounded_vel {s s' : GameState} (st : Step s s')
    (h : s.isJumping = false → s.jumpVelocity = 0) :
    s'.isJumping = false → s'.jumpVelocity = 0 := by
  cases st with
  | keySpace b s =>
      simp only [onKeyDownSpace]
      split_ifs
      · simpa using h
      · simp
      · exact jump_grounded_vel b s h
  | keyDuckDown s =>
      simp only [onKeyDownArrowDown]
      split_ifs
      · simpa using h
      · exact h
  | keyDuckUp s =>
      simp only [onKeyUpArrowDown]
      split_ifs
      · simpa using h
      · simpa using h
  | pointerDown s =>
      simp only [onPointerDown]
      split_ifs
      · simpa using h
      · simp
      · simpa using h
      · exact h
  | pointerUp b s =>
      simp only [onPointerUp]
      split_ifs
      · exact h
      · exact jump_grounded_vel b _ (by simpa using h)
      · exact jump_grounded_vel b s h
  | frame t o s => exact animate_grounded_vel t o s h

/-- In every reachable state, a grounded dino has zero jump velocity. -/
lemma reachable_grounded_vel {s : GameState} (h : Reachable s) :
    s.isJumping = false → s.jumpVelocity = 0 := by
  induction h with
  | init hs => intro _; rfl
  | step _ st ih => exact step_grounded_vel st ih

/-- The Idle-state invariant: before the first start signal the
obstacle and particle collections are empty and the spawn timer is
zero. -/
def IdleInv (s : GameState) : Prop :=
  s.gameStarted = false →
    s.obstacles = [] ∧ s.particles = [] ∧ s.obstacleTimer = 0

/-- Every event preserves the Idle-state invariant (no event ever
clears `gameStarted`, and in Idle no event populates the collections
or the timer). -/
lemma step_idleInv {s s' : GameState} (st : Step s s') (h : IdleInv s) : IdleInv s' := by
  cases st with
  | keySpace b s =>
      simp only [onKeyDownSpace]
      split_ifs with h1 h2
      · intro hgs; simp at hgs
      · intro hgs; simp at hgs
      · intro hgs
        rw [jump_gameStarted] at hgs
        simp [hgs] at h1
  | keyDuckDown s =>
      simp only [onKeyDownArrowDown]
      split_ifs with h1
      · intro hgs
        simp only [GameState.gameStarted] at hgs
        simp [hgs] at h1
      · exact h
  | keyDuckUp s =>
      intro hgs
      simp only [onKeyUpArrowDown] at hgs ⊢
      split_ifs at hgs ⊢ <;> simpa using h (by simpa using hgs)
  | pointerDown s =>
      simp only [onPointerDown]
      split_ifs with h1 h2 h3
      · intro hgs; simp at hgs
      · intro hgs; simp at hgs
      · intro hgs
        simp only [GameState.gameStarted] at hgs
        simp [hgs] at h1
      · intro hgs
        simp [hgs] at h1
  | pointerUp b s =>
      simp only [onPointerUp]
      split_ifs with h1 h2
      · exact h
      · intro hgs
        rw [jump_gameStarted] at hgs
        simp at hgs
        simp [hgs] at h1
      · intro hgs
        rw [jump_gameStarted] at hgs
        simp [hgs] at h1
  | frame t o s =>
      intro hgs
      rw [animate_gameStarted] at hgs
      obtain ⟨ho, hp, ht⟩ := animate_idle t o s hgs
      obtain ⟨ho0, hp0, ht0⟩ := h hgs
      exact ⟨by rw [ho, ho0], by rw [hp, hp0]; rfl, by rw [ht, ht0]⟩

/-- In every reachable Idle state the collections are empty and the
spawn timer is zero. -/
lemma reachable_idleInv {s : GameState} (h : Reachable s) : IdleInv s := by
  induction h with
  | init hs => intro _; exact ⟨rfl, rfl, rfl⟩
  | step _ st ih => exact step_idleInv st ih

/-! ## Scoring lemmas -/

@[simp] lemma moveObs_passed (sp δ : ℚ) (obs : Obstacle) :
    (moveObs sp δ obs).passed = obs.passed := rfl

lemma scoreHit_of_passed (obs : Obstacle) (h : obs.passed = true) :
    scoreHit obs = false := by simp [scoreHit, h]

/-- The net score effect of one obstacle iteration: `+100` exactly
when the scoring trigger fires, otherwise unchanged (a collision does
not change the score). -/
lemma obstacleStepState_score (sp δ : ℚ) (o : TickOracle) (s : GameState) (obs : Obstacle) :
    (obstacleStepState sp δ o s obs).score =
      if scoreHit (moveObs sp δ obs) then s.score + 100 else s.score := by
  simp only [obstacleStepState]
  split_ifs <;> rfl

/-- The obstacle's `passed` flag after one iteration: set once the
scoring trigger fires, and never cleared. -/
lemma steppedObs_passed (sp δ : ℚ) (obs : Obstacle) :
    (steppedObs sp δ obs).passed = (obs.passed || scoreHit (moveObs sp δ obs)) := by
  simp only [steppedObs]
  split_ifs with h
  · simp [h]
  · simp [moveObs_passed, h]

/-! ## Particle-system lemmas -/

@[simp] lemma particleStep_px (p : Particle) : (particleStep p).px = p.px + p.vx := rfl
@[simp] lemma particleStep_py (p : Particle) : (particleStep p).py = p.py + p.vy := rfl
@[simp] lemma particleStep_pz (p : Particle) : (particleStep p).pz = p.pz + p.vz := rfl
@[simp] lemma particleStep_vx (p : Particle) : (particleStep p).vx = p.vx := rfl
@[simp] lemma particleStep_vy (p : Particle) : (particleStep p).vy = p.vy - 8/1000 := rfl
@[simp] lemma particleStep_vz (p : Particle) : (particleStep p).vz = p.vz := rfl
@[simp] lemma particleStep_life (p : Particle) : (particleStep p).life = p.life - 2/100 := rfl

/-- The particle loop is the per-particle update followed by pruning
of everything whose life is no longer positive. -/
lemma particlesTick_eq (ps : List Particle) :
    particlesTick ps = (ps.map particleStep).filter (fun q => decide (0 < q.life)) := by
  induction ps with
  | nil => rfl
  | cons p rest ih =>
      simp only [particlesTick, List.map_cons, List.filter_cons, decide_eq_true_eq]
      split_ifs with h
      · simp [ih]
      · exact ih

/-- Survivor characterisation for one particle-system tick. -/
lemma mem_particlesTick (ps : List Particle) (q : Particle) :
    q ∈ particlesTick ps ↔ (∃ r ∈ ps, particleStep r = q) ∧ 0 < q.life := by
  rw [particlesTick_eq]
  simp [List.mem_filter]

/-! ## Claims -/

/-- C1 (counterexample): the duck key-press, taken in the very first
Playing state, puts the dino's vertical position `0.5` below the base
ground height `baseY`, so the claimed invariant "vertical position
never below the base ground height" fails on the duck-press
operation. -/
theorem C1_counterexample :
    (onKeyDownArrowDown (onKeyDownSpace [] (initState 0))).dinoY < baseY := by
  norm_num [onKeyDownArrowDown, onKeyDownSpace, startGame, initState, jump,
    baseY, groundY]

/-- C1 (amended): in every reachable state the dino's vertical
position is at least `baseY - 1/2` — the base ground height lowered by
the duck offset `0.5`; no tick or input ever takes it lower. -/
theorem C1_theorem : ∀ s : GameState, Reachable s → baseY - 1/2 ≤ s.dinoY :=
  fun _ h => reachable_dinoY_lb h

/-- C1 (witness): the amended bound is tight at the reachable
duck-press state exhibited by the counterexample. -/
theorem C1_witness :
    baseY - 1/2 ≤ (onKeyDownArrowDown (onKeyDownSpace [] (initState 0))).dinoY :=
  C1_theorem _
    (Reachable.step (Reachable.step (Reachable.init 0) (Step.keySpace [] _))
      (Step.keyDuckDown _))

/-- C2 (counterexample): on the frame where `collideObs` overlaps the
dino the run transitions to GameOver, yet the dino's jump physics for
that same frame is still applied afterwards — its vertical position
advances by `jumpVelocity · δ` (with `δ = 1` here) instead of staying
put, contradicting "the player's jump physics for that same tick is
not applied after the transition". -/
theorem C2_counterexample :
    (animate nominalFrame noBurst collideState).gameOver = true ∧
    collideState.dinoY = baseY + 1/5 ∧
    (animate nominalFrame noBurst collideState).dinoY = baseY + 1/5 + jumpVel := by
  norm_num [animate, gameplay, spawnPhase, obstaclePhase, obstacleLoop, obstacleStep,
    obstacleStepState, obstacleStepKeep, steppedObs, physicsStep, particlesTick,
    clampedDelta, nominalFrame, noBurst, collideState, collideObs, moveObs, scoreHit,
    checkCollision, boxesOverlap, dinoBox, obsBox, endGame, createObstacle,
    createCactus, spawnInterval, baseSpeed, speedCoef, gravity, jumpVel, baseY,
    groundY, dinoX]

/-- C2 (amended): within a Playing tick the update order is obstacle
spawning, then per-obstacle motion/scoring/collision, then the
player's jump-physics integration, then the particle update; the
GameOver decision is made by the obstacle phase and is left untouched
by the later phases, but on a tick whose collision transitions the
game to GameOver the jump physics for that same tick IS still applied
after the transition — the vertical position is integrated from the
pre-tick jump state regardless of the collision outcome (the gameplay
freeze only takes effect from the next tick). -/
theorem C2_theorem :
    ∀ (s : GameState) (t : ℚ) (o : TickOracle),
    s.gameStarted = true → s.gameOver = false →
    (animate t o s).gameOver =
      (obstaclePhase (clampedDelta t s.lastTime) o
        (spawnPhase (clampedDelta t s.lastTime) o { s with lastTime := t })).gameOver ∧
    (animate t o s).dinoY =
      (if s.isJumping then
        (if s.dinoY + s.jumpVelocity * clampedDelta t s.lastTime ≤ baseY then baseY
         else s.dinoY + s.jumpVelocity * clampedDelta t s.lastTime)
       else s.dinoY) ∧
    (animate t o s).particles =
      particlesTick (physicsStep (clampedDelta t s.lastTime) o.landBurst
        (obstaclePhase (clampedDelta t s.lastTime) o
          (spawnPhase (clampedDelta t s.lastTime) o
            { s with lastTime := t }))).particles := by
  intro s t o h1 h2
  refine ⟨?_, ?_, ?_⟩
  · simp only [animate, gameplay, h1, h2, Bool.not_false, Bool.and_self, if_true]
    rw [physicsStep_gameOver]
  · simp only [animate, gameplay, h1, h2, Bool.not_false, Bool.and_self, if_true]
    rw [physicsStep_dinoY, obstaclePhase_dinoY, spawnPhase_dinoY,
      obstaclePhase_isJumping, spawnPhase_isJumping,
      obstaclePhase_jumpVelocity, spawnPhase_jumpVelocity]
  · simp only [animate, gameplay, h1, h2, Bool.not_false, Bool.and_self, if_true]

/-- C2 (witness): at the concrete colliding state the amended
description of the tick holds. -/
theorem C2_witness :
    (animate nominalFrame noBurst collideState).gameOver =
      (obstaclePhase (clampedDelta nominalFrame collideState.lastTime) noBurst
        (spawnPhase (clampedDelta nominalFrame collideState.lastTime) noBurst
          { collideState with lastTime := nominalFrame })).gameOver ∧
    (animate nominalFrame noBurst collideState).dinoY =
      (if collideState.isJumping then
        (if collideState.dinoY +
              collideState.jumpVelocity * clampedDelta nominalFrame collideState.lastTime ≤
            baseY then baseY
         else collideState.dinoY +
            collideState.jumpVelocity * clampedDelta nominalFrame collideState.lastTime)
       else collideState.dinoY) ∧
    (animate nominalFrame noBurst collideState).particles =
      particlesTick (physicsStep (clampedDelta nominalFrame collideState.lastTime)
        noBurst.landBurst
        (obstaclePhase (clampedDelta nominalFrame collideState.lastTime) noBurst
          (spawnPhase (clampedDelta nominalFrame collideState.lastTime) noBurst
            { collideState with lastTime := nominalFrame }))).particles :=
  C2_theorem collideState nominalFrame noBurst rfl rfl

/-- C3: from any reachable Idle state, the start input yields a
Playing state with score `0`, speed at base, empty obstacle and
particle collections, and spawn timer `0` (the handler itself resets
only score and speed; the collections and timer are already empty in
every reachable Idle state). -/
theorem C3_theorem :
    ∀ s : GameState, Reachable s → s.gameStarted = false →
    (startGame s).gameStarted = true ∧
    (startGame s).score = 0 ∧
    (startGame s).speed = baseSpeed ∧
    (startGame s).obstacles = [] ∧
    (startGame s).particles = [] ∧
    (startGame s).obstacleTimer = 0 := by
  intro s hr hgs
  obtain ⟨ho, hp, ht⟩ := reachable_idleInv hr hgs
  exact ⟨rfl, rfl, rfl, by simpa using ho, by simpa using hp, by simpa using ht⟩

/-- C3 (witness): the reset holds for the start input taken in the
initial state. -/
theorem C3_witness :
    (startGame (initState 5)).gameStarted = true ∧
    (startGame (initState 5)).score = 0 ∧
    (startGame (initState 5)).speed = baseSpeed ∧
    (startGame (initState 5)).obstacles = [] ∧
    (startGame (initState 5)).particles = [] ∧
    (startGame (initState 5)).obstacleTimer = 0 :=
  C3_theorem _ (Reachable.init 5) rfl

/-- C4 (counterexample): on a frame whose delta multiplier is `2`, the
probe particle (unit horizontal velocity) moves by `1`, not by
`velocity · 2 = 2`: the particle update is applied per frame, not
scaled by the delta multiplier, refuting "position changes by its
velocity times d". -/
theorem C4_counterexample :
    clampedDelta (2 * nominalFrame) particleState.lastTime = 2 ∧
    (animate (2 * nominalFrame) noBurst particleState).particles.map Particle.px = [1] ∧
    probeParticle.px + probeParticle.vx * 2 = 2 ∧ (1 : ℚ) ≠ 2 := by
  norm_num [animate, clampedDelta, nominalFrame, particleState, initState,
    probeParticle, particlesTick, particleStep, noBurst]

/-- C4 (amended): each particle-system tick moves every particle by
its velocity, pulls `velocity.y` down by the fixed constant `0.008`
and decrements life by the fixed constant `0.02` — all per frame,
without scaling by the delta multiplier — and a particle survives the
tick exactly when it is the update of a previous particle whose life
is still positive afterwards (so every particle whose life is `≤ 0`
after the update is removed that same tick). -/
theorem C4_theorem :
    ∀ (ps : List Particle) (p q : Particle),
    (particleStep p).px = p.px + p.vx ∧
    (particleStep p).py = p.py + p.vy ∧
    (particleStep p).pz = p.pz + p.vz ∧
    (particleStep p).vx = p.vx ∧
    (particleStep p).vy = p.vy - 8/1000 ∧
    (particleStep p).vz = p.vz ∧
    (particleStep p).life = p.life - 2/100 ∧
    (q ∈ particlesTick ps ↔ (∃ r ∈ ps, particleStep r = q) ∧ 0 < q.life) ∧
    (q ∈ particlesTick ps → 0 < q.life) :=
  fun ps _p q =>
    ⟨rfl, rfl, rfl, rfl, rfl, rfl, rfl, mem_particlesTick ps q,
     fun h => ((mem_particlesTick ps q).mp h).2⟩

/-- C4 (witness): the probe particle survives one tick (its life drops
to `0.98 > 0`) and its update satisfies the per-frame equations. -/
theorem C4_witness : particleStep probeParticle ∈ particlesTick [probeParticle] :=
  ((C4_theorem [probeParticle] probeParticle (particleStep probeParticle)).2.2.2.2.2.2.2.1).mpr
    ⟨⟨probeParticle, by simp, rfl⟩, by norm_num [particleStep, probeParticle]⟩

/-- C5: the score never decreases across a frame, and each obstacle is
scored exactly once: an obstacle whose `passed` flag is set contributes
nothing on any later iteration and stays passed, while an unpassed
obstacle adds exactly `100` on the single iteration where the scoring
trigger fires, which also sets its `passed` flag. -/
theorem C5_theorem :
    ∀ (t sp δ : ℚ) (o : TickOracle) (s : GameState) (obs : Obstacle),
    s.score ≤ (animate t o s).score ∧
    (obs.passed = true →
      (obstacleStepState sp δ o s obs).score = s.score ∧
      (steppedObs sp δ obs).passed = true) ∧
    (obs.passed = false →
      (scoreHit (moveObs sp δ obs) = true →
        (obstacleStepState sp δ o s obs).score = s.score + 100 ∧
        (steppedObs sp δ obs).passed = true) ∧
      (scoreHit (moveObs sp δ obs) = false →
        (obstacleStepState sp δ o s obs).score = s.score ∧
        (steppedObs sp δ obs).passed = false)) := by
  intro t sp δ o s obs
  refine ⟨animate_score_mono t o s, ?_, ?_⟩
  · intro hp
    have hsh : scoreHit (moveObs sp δ obs) = false :=
      scoreHit_of_passed _ (by rw [moveObs_passed]; exact hp)
    constructor
    · rw [obstacleStepState_score, hsh]; simp
    · rw [steppedObs_passed, hp]; rfl
  · intro hp
    constructor
    · intro hsh
      constructor
      · rw [obstacleStepState_score, hsh]; simp
      · rw [steppedObs_passed, hsh]; simp
    · intro hsh
      constructor
      · rw [obstacleStepState_score, hsh]; simp
      · rw [steppedObs_passed, hp, hsh]; rfl

/-- C5 (witness): an already-passed obstacle adds no score on a later
iteration and stays passed, and a concrete frame never lowers the
score. -/
theorem C5_witness :
    collideState.score ≤ (animate nominalFrame noBurst collideState).score ∧
    (obstacleStepState baseSpeed 1 noBurst collideState passedObs).score =
      collideState.score ∧
    (steppedObs baseSpeed 1 passedObs).passed = true :=
  ⟨(C5_theorem nominalFrame baseSpeed 1 noBurst collideState passedObs).1,
   ((C5_theorem nominalFrame baseSpeed 1 noBurst collideState passedObs).2.1 rfl).1,
   ((C5_theorem nominalFrame baseSpeed 1 noBurst collideState passedObs).2.1 rfl).2⟩

/-- C6: `endGame` overwrites the stored best score with the run's
score exactly when the score strictly exceeds it, leaves it unchanged
otherwise, and therefore never decreases it. -/
theorem C6_theorem :
    ∀ (b : List Particle) (s : GameState),
    s.highScore ≤ (endGame b s).highScore ∧
    (s.highScore < s.score → (endGame b s).highScore = s.score) ∧
    (s.score ≤ s.highScore → (endGame b s).highScore = s.highScore) := by
  intro b s
  rw [endGame_highScore]
  refine ⟨?_, ?_, ?_⟩
  · split_ifs with h
    · exact Nat.le_of_lt h
    · exact le_refl _
  · intro h; simp [h]
  · intro h; simp [Nat.not_lt.mpr h]

/-- C6 (witness): the claim's scenario — stored best `100`, a run
ending at `150` overwrites it; a later run ending at `90` against a
best of `150` leaves it unchanged. -/
theorem C6_witness :
    run150.highScore < run150.score ∧
    (endGame [] run150).highScore = run150.score ∧
    run90.score ≤ run90.highScore ∧
    (endGame [] run90).highScore = run90.highScore :=
  ⟨by norm_num [run150, initState],
   (C6_theorem [] run150).2.1 (by norm_num [run150, initState]),
   by norm_num [run90, initState],
   (C6_theorem [] run90).2.2 (by norm_num [run90, initState])⟩

/-- C7: the spawn interval is a non-increasing function of the score
and never falls below its floor constant `50`. -/
theorem C7_theorem :
    ∀ s1 s2 : ℕ, (s1 ≤ s2 → spawnInterval s2 ≤ spawnInterval s1) ∧
    (50 : ℚ) ≤ spawnInterval s1 := by
  intro s1 s2
  constructor
  · intro h
    refine max_le_max (le_refl _) ?_
    have hc : (s1 : ℚ) ≤ (s2 : ℚ) := Nat.cast_le.mpr h
    have := mul_le_mul_of_nonneg_right hc (by norm_num : (0:ℚ) ≤ 3/100)
    linarith
  · exact le_max_left _ _

/-- C7 (witness): instantiated at scores `0 ≤ 4000` (where the floor
binds: `100 - 4000·0.03 = -20`, clamped to `50`). -/
theorem C7_witness :
    spawnInterval 4000 ≤ spawnInterval 0 ∧ (50 : ℚ) ≤ spawnInterval 4000 :=
  ⟨(C7_theorem 0 4000).1 (by norm_num), (C7_theorem 4000 0).2⟩

/-- C8 (counterexample): the ducking and standing hitboxes have the
same width (`1.2`); only their heights differ, so "the ducking hitbox
differs from the standing hitbox in width as well as in height" fails. -/
theorem C8_counterexample :
    (dinoBox baseY true).width = (dinoBox baseY false).width ∧
    (dinoBox baseY true).height ≠ (dinoBox baseY false).height := by
  norm_num [dinoBox]

/-- C8 (amended): only the height of the player hitbox supplied to the
collision detector depends on the duck state (`1` ducking, `2`
standing); its width is the constant `1.2` in both postures, and the
collision check uses this hitbox verbatim. -/
theorem C8_theorem :
    ∀ (y : ℚ) (d : Bool) (obs : Obstacle),
    (dinoBox y d).width = 6/5 ∧
    (dinoBox y true).height = 1 ∧
    (dinoBox y false).height = 2 ∧
    (dinoBox y d).x = dinoX - 2/5 ∧
    (dinoBox y d).y = y ∧
    checkCollision y d obs = boxesOverlap (dinoBox y d) (obsBox obs) := by
  intro y d obs
  refine ⟨?_, rfl, rfl, rfl, rfl, rfl⟩
  cases d <;> rfl

/-- C9: while airborne in a run, the keyboard duck press is still
accepted — it sets the ducking flag and forces the vertical position to
exactly `0.5` below the base ground height, overriding the jump
integrator's position — whereas the pointer duck path leaves the state
untouched while airborne. -/
theorem C9_theorem :
    ∀ s : GameState,
    s.gameStarted = true → s.gameOver = false → s.isJumping = true →
    (onKeyDownArrowDown s).isDucking = true ∧
    (onKeyDownArrowDown s).dinoY = baseY - 1/2 ∧
    (onKeyDownArrowDown s).dinoY < baseY ∧
    onPointerDown s = s := by
  intro s h1 h2 h3
  have hduck : (onKeyDownArrowDown s) =
      { s with isDucking := true, dinoScaleY := 1/2, dinoY := baseY - 1/2 } := by
    simp [onKeyDownArrowDown, h1, h2]
  refine ⟨by rw [hduck], by rw [hduck], by rw [hduck]; norm_num [baseY, groundY], ?_⟩
  simp [onPointerDown, h1, h2, h3]

/-- C9 (witness): instantiated at the concrete airborne mid-run
state. -/
theorem C9_witness :
    (onKeyDownArrowDown airborneState).isDucking = true ∧
    (onKeyDownArrowDown airborneState).dinoY = baseY - 1/2 ∧
    (onKeyDownArrowDown airborneState).dinoY < baseY ∧
    onPointerDown airborneState = airborneState :=
  C9_theorem airborneState rfl rfl rfl

/-- C10: in every reachable state, a grounded player (jumping flag
false) has jump velocity `0`; jump start, landing inside the
integrator, and restart all preserve this invariant. -/
theorem C10_theorem :
    ∀ s : GameState, Reachable s → s.isJumping = false → s.jumpVelocity = 0 :=
  fun _ h => reachable_grounded_vel h

/-- C10 (witness): the invariant at the initial state. -/
theorem C10_witness : (initState 3).jumpVelocity = 0 :=
  C10_theorem _ (Reachable.init 3) rfl

end DinoGame
